import Mathlib

/-!
Verification development for the XpathGet content-localization engine
(`zGetContentByXpath.py`).  The HTML document tree produced by the external
parser is modelled as a rose tree of element and text nodes; the cleaning,
scoring, selection and locator functions of the source are translated over
this model.  Machine text is modelled as Lean `String` (sequences of Unicode
code points, matching Python `str` semantics for `len`, `in` and slicing);
all string helpers are re-implemented over `String.data` so that every
definition evaluates inside the kernel.
-/

namespace XpathGet

/-- A node of the document tree: an element with a tag, an ordered attribute
list and ordered children, or a text node.  This models the mutable lxml
tree; text is represented as child nodes, which preserves the concatenated
`text_content()` of every element. -/
inductive Node where
  | elem (tag : String) (attrs : List (String × String)) (children : List Node)
  | text (s : String)

mutual

/-- Structural boolean equality on nodes (models CPython object comparison of
parsed subtrees; concrete inputs in this development never contain two
structurally equal distinct subtrees, so identity and structural equality
coincide on them). -/
def beqNode : Node → Node → Bool
  | .text s, .text t => s == t
  | .elem t1 a1 c1, .elem t2 a2 c2 => t1 == t2 && a1 == a2 && beqNodeList c1 c2
  | _, _ => false

def beqNodeList : List Node → List Node → Bool
  | [], [] => true
  | x :: xs, y :: ys => beqNode x y && beqNodeList xs ys
  | _, _ => false

end

instance : BEq Node := ⟨beqNode⟩

mutual

theorem beqNode_refl : ∀ a : Node, beqNode a a = true
  | .text s => by simp [beqNode]
  | .elem t a c => by simp [beqNode, beqNodeList_refl c]

theorem beqNodeList_refl : ∀ l : List Node, beqNodeList l l = true
  | [] => by simp [beqNodeList]
  | x :: xs => by simp [beqNodeList, beqNode_refl x, beqNodeList_refl xs]

end

mutual

theorem beqNode_eq : ∀ a b : Node, beqNode a b = true → a = b
  | .text s, .text t, h => by
    simp [beqNode] at h; simp [h]
  | .elem t1 a1 c1, .elem t2 a2 c2, h => by
    simp [beqNode] at h
    obtain ⟨⟨h1, h2⟩, h3⟩ := h
    simp [h1, h2, beqNodeList_eq c1 c2 h3]
  | .text _, .elem _ _ _, h => by simp [beqNode] at h
  | .elem _ _ _, .text _, h => by simp [beqNode] at h

theorem beqNodeList_eq : ∀ as bs : List Node, beqNodeList as bs = true → as = bs
  | [], [], _ => rfl
  | x :: xs, y :: ys, h => by
    simp [beqNodeList] at h
    simp [beqNode_eq x y h.1, beqNodeList_eq xs ys h.2]
  | [], _ :: _, h => by simp [beqNodeList] at h
  | _ :: _, [], h => by simp [beqNodeList] at h

end

instance : LawfulBEq Node where
  eq_of_beq := fun h => beqNode_eq _ _ h
  rfl := beqNode_refl _

instance : DecidableEq Node := fun a b =>
  if h : beqNode a b = true then isTrue (beqNode_eq a b h)
  else isFalse (fun he => h (he ▸ beqNode_refl a))

/-- Tag of a node; text nodes get the sentinel `#text`, which is never a valid
element tag, so tag comparisons against literals behave as in lxml where text
nodes are not elements. -/
def tagOf : Node → String
  | .elem t _ _ => t
  | .text _ => "#text"

def isElem : Node → Bool
  | .elem _ _ _ => true
  | .text _ => false

/-- Element attribute lookup, modelling lxml `element.get(name)` (first
matching attribute, `None` when absent). -/
def getAttr : Node → String → Option String
  | .text _, _ => none
  | .elem _ attrs _, name => (attrs.find? (fun p => p.1 == name)).map (·.2)

/-- Attribute lookup with `''` default, modelling `element.get(name, '')`. -/
def attrD (n : Node) (name : String) : String := (getAttr n name).getD ""

def childrenOf : Node → List Node
  | .text _ => []
  | .elem _ _ cs => cs

/-- Direct element children (lxml `len(element)` / iteration sees only
subelements, never text). -/
def childElems (n : Node) : List Node := (childrenOf n).filter isElem

mutual

/-- All element descendants of a node, in document (pre-)order, excluding the
node itself: models the XPath `.//*` axis. -/
def descendants : Node → List Node
  | .text _ => []
  | .elem _ _ cs => descendantsL cs

def descendantsL : List Node → List Node
  | [] => []
  | c :: cs =>
    (match c with
     | .text _ => []
     | .elem t a k => Node.elem t a k :: descendants (Node.elem t a k)) ++ descendantsL cs

end

mutual

/-- Concatenated text of a subtree, modelling lxml `text_content()`. -/
def textContent : Node → String
  | .text s => s
  | .elem _ _ cs => textContentL cs

def textContentL : List Node → String
  | [] => ""
  | c :: cs => textContent c ++ textContentL cs

end

/-- Python `str.lower()` (code-point-wise lowering; CJK characters are fixed
points, as in Python). -/
def lowerStr (s : String) : String := ⟨s.data.map Char.toLower⟩

def trimData (cs : List Char) : List Char :=
  ((cs.dropWhile Char.isWhitespace).reverse.dropWhile Char.isWhitespace).reverse

/-- Python `str.strip()`. -/
def trimStr (s : String) : String := ⟨trimData s.data⟩

/-- Python `len` on a string (number of code points). -/
def strLen (s : String) : Nat := s.data.length

def strContainsAux : List Char → List Char → Bool
  | _, [] => true
  | [], _ :: _ => false
  | c :: cs, sub => sub.isPrefixOf (c :: cs) || strContainsAux cs sub

/-- Python substring containment `sub in s` (naive containment at any
position). -/
def strContains (s sub : String) : Bool := strContainsAux s.data sub.data

/-- Characters treated as word-like by the scorer's boundary regex
`(^|[^\w-])kw([^\w-]|$)`: word characters and the hyphen. -/
def isWordHyphen (c : Char) : Bool := c.isAlphanum || c == '_' || c == '-'

def wbBoundaryPrev : Option Char → Bool
  | none => true
  | some c => !isWordHyphen c

def wbBoundaryNext : List Char → Bool
  | [] => true
  | c :: _ => !isWordHyphen c

def wbScan (kw : List Char) : Option Char → List Char → Bool
  | prev, [] => kw.isEmpty && wbBoundaryPrev prev
  | prev, c :: cs =>
    (kw.isPrefixOf (c :: cs) && wbBoundaryPrev prev
        && wbBoundaryNext (List.drop kw.length (c :: cs)))
      || wbScan kw (some c) cs

/-- Word-boundary keyword search, modelling the compiled pattern
`(^|[^\w-])kw([^\w-]|$)` used by `create_pattern` in
`calculate_content_container_score`. -/
def wordBoundaryContains (hay kw : String) : Bool := wbScan kw.data none hay.data

/-! Keyword tables, copied verbatim from `zGetContentByXpath.py`. -/

/-- `header_content_keywords` of `remove_page_level_header_footer` and
`calculate_content_container_score`. -/
def header_content_keywords : List String :=
  ["登录", "注册", "首页", "主页", "无障碍", "政务", "办事", "互动",
   "走进", "移动版", "手机版", "导航", "菜单", "搜索", "市政府",
   "login", "register", "home", "menu", "search", "nav"]

/-- `footer_content_keywords` of `remove_page_level_header_footer` and
`calculate_content_container_score`. -/
def footer_content_keywords : List String :=
  ["网站说明", "网站标识码", "版权所有", "主办单位", "承办单位",
   "技术支持", "联系我们", "网站地图", "隐私政策", "免责声明",
   "备案号", "icp", "公安备案", "政府网站", "网站管理",
   "copyright", "all rights reserved", "powered by", "designed by"]

/-- `strong_header_indicators` of `remove_page_level_header_footer`. -/
def strong_header_indicators : List String :=
  ["header", "top", "navbar", "navigation", "menu-main",
   "site-header", "page-header", "banner", "topbar"]

/-- `strong_footer_indicators` of `remove_page_level_header_footer`. -/
def strong_footer_indicators : List String :=
  ["footer", "bottom", "site-footer", "page-footer",
   "footerpc", "wapfooter", "g-bottom"]

/-- `strong_interference_keywords` of `calculate_content_container_score`. -/
def strong_interference_keywords : List String :=
  ["header", "footer", "nav", "navigation", "menu", "menubar",
   "topbar", "bottom", "sidebar", "aside", "banner", "ad", "advertisement"]

/-- `positive_keywords` of `calculate_content_container_score`. -/
def positive_keywords : List String :=
  ["content", "main", "article", "news", "data", "info",
   "detail", "result", "list", "body", "text", "container"]

/-- `interference_keywords` of `is_interference_identifier`. -/
def interference_keywords : List String :=
  ["header", "footer", "nav", "navigation", "menu", "menubar",
   "topbar", "bottom", "sidebar", "aside", "banner", "ad"]

/-! The Structural Cleaner. -/

mutual

/-- Recursively delete every subtree whose root satisfies `p`.  This models the
lxml pattern "collect elements with an XPath, then `parent.remove(element)` for
each": removing a matched element detaches its whole subtree, and nested
matches inside already-detached subtrees are removed without error, so the
surviving tree is exactly the recursive filter. -/
def removeNodes (p : Node → Bool) : Node → Node
  | .text s => .text s
  | .elem t a cs => .elem t a (removeNodesL p cs)

def removeNodesL (p : Node → Bool) : List Node → List Node
  | [] => []
  | c :: cs => if p c then removeNodesL p cs else removeNodes p c :: removeNodesL p cs

end

/-- First round of `remove_page_level_header_footer`: the semantic tags
deleted via the XPaths `//header`, `//footer`, `//nav`. -/
def semanticTagPred (n : Node) : Bool :=
  tagOf n == "header" || tagOf n == "footer" || tagOf n == "nav"

def removeSemanticRound1 (body : Node) : Node := removeNodes semanticTagPred body

/-- Predicate of `remove_semantic_interference_tags`: the XPaths
`//header`, `//footer`, `//nav`, `//aside`, `//div[@role='navigation']`,
`//div[@role='banner']`, `//div[@role='contentinfo']`,
`//section[@role='navigation']`. -/
def strictSemanticPred (n : Node) : Bool :=
  tagOf n == "header" || tagOf n == "footer" || tagOf n == "nav" || tagOf n == "aside"
    || (tagOf n == "div" &&
        (attrD n "role" == "navigation" || attrD n "role" == "banner"
          || attrD n "role" == "contentinfo"))
    || (tagOf n == "section" && attrD n "role" == "navigation")

/-- `remove_semantic_interference_tags` (the stricter variant of the semantic
removal pass). -/
def remove_semantic_interference_tags (body : Node) : Node :=
  removeNodes strictSemanticPred body

/-- Second round of `remove_page_level_header_footer`: decides whether a
direct `div` child of the body carries strong header/footer features.  The
keyword test is Python `in` — naive substring containment on the lowered
`class`/`id` — and the content test counts keyword hits in the lowered text
against the text length thresholds. -/
def isHeaderFooterTopDiv (d : Node) : Bool :=
  let classes := lowerStr (attrD d "class")
  let eid := lowerStr (attrD d "id")
  let txt := lowerStr (textContent d)
  ((strong_header_indicators ++ strong_footer_indicators).any
      (fun i => strContains classes i || strContains eid i))
    || (decide ((header_content_keywords.filter (fun w => strContains txt w)).length ≥ 4)
          && decide (strLen (trimStr txt) < 1000))
    || (decide ((footer_content_keywords.filter (fun w => strContains txt w)).length ≥ 3)
          && decide (strLen (trimStr txt) < 800))

/-- Removal of the direct `div` children of the body that match
`isHeaderFooterTopDiv` (the `./div` loop of the second round). -/
def removeTopHeaderFooterDivs : Node → Node
  | .text s => .text s
  | .elem t a cs =>
    .elem t a (cs.filter (fun c => !(tagOf c == "div" && isHeaderFooterTopDiv c)))

/-- `remove_page_level_header_footer`: semantic-tag round followed by removal
of the direct `div` children of the body that match `isHeaderFooterTopDiv`. -/
def remove_page_level_header_footer (body : Node) : Node :=
  removeTopHeaderFooterDivs (removeSemanticRound1 body)

mutual

/-- First `body` element of the document in document order, modelling
`page_tree.xpath("//body")[0]`. -/
def findBodyN : Node → Option Node
  | .text _ => none
  | .elem t a cs => if t == "body" then some (.elem t a cs) else findBodyL cs

def findBodyL : List Node → Option Node
  | [] => none
  | c :: cs =>
    match findBodyN c with
    | some b => some b
    | none => findBodyL cs

end

/-- `preprocess_html_remove_interference`: take the body (or the whole tree if
there is none) and run the aggressive page-level header/footer removal. -/
def preprocess_html_remove_interference (tree : Node) : Node :=
  remove_page_level_header_footer ((findBodyN tree).getD tree)

/-! The Candidate Scorer (`calculate_content_container_score`). -/

/-- Breadcrumb test of the scorer: `'当前位置' in text_content.lower() or
'当前的位置' in text_content.lower()`. -/
def hasBreadcrumb (t : String) : Bool :=
  strContains (lowerStr t) "当前位置" || strContains (lowerStr t) "当前的位置"

/-- `found_header_keywords` count of the scorer: each header keyword found in
the lowered text, with every hit discarded when the breadcrumb phrase is
present. -/
def headerContentCount (t : String) : Nat :=
  (header_content_keywords.filter
    (fun kw => strContains (lowerStr t) kw && !hasBreadcrumb t)).length

/-- `found_footer_keywords` count of the scorer (no breadcrumb suppression). -/
def footerContentCount (t : String) : Nat :=
  (footer_content_keywords.filter (fun kw => strContains (lowerStr t) kw)).length

/-- Header-content penalty of the scorer: 300 when at least three header
keywords hit, 150 when exactly two, otherwise nothing. -/
def headerPenalty (t : String) : Int :=
  if headerContentCount t ≥ 3 then 300
  else if headerContentCount t ≥ 2 then 150
  else 0

/-- Footer-content penalty of the scorer, same thresholds over the footer
vocabulary. -/
def footerPenalty (t : String) : Int :=
  if footerContentCount t ≥ 3 then 300
  else if footerContentCount t ≥ 2 then 150
  else 0

/-- Text-length score of the scorer (signal 4). -/
def lengthBonus (tl : Nat) : Int :=
  if tl > 1000 then 50
  else if tl > 500 then 35
  else if tl > 200 then 20
  else if tl < 50 then -20
  else 0

/-- ARIA-role score of the scorer (signal 5). -/
def roleBonus (role : String) : Int :=
  if role == "viewlist" then 150
  else if role == "list" || role == "listbox" || role == "grid"
      || role == "main" || role == "article" then 50
  else 0

/-- Descendants counted by the structural-richness XPath (signal 8):
`.//p | .//h1 .. .//h6 | .//li | .//table | .//div[contains(@class,'content')]
 | .//section`. -/
def isStructuredElem (n : Node) : Bool :=
  tagOf n == "p" || tagOf n == "h1" || tagOf n == "h2" || tagOf n == "h3"
    || tagOf n == "h4" || tagOf n == "h5" || tagOf n == "h6"
    || tagOf n == "li" || tagOf n == "table" || tagOf n == "section"
    || (tagOf n == "div" && strContains (attrD n "class") "content")

def structuredCount (c : Node) : Nat := ((descendants c).filter isStructuredElem).length

def imageCount (c : Node) : Nat := ((descendants c).filter (fun d => tagOf d == "img")).length

/-- `calculate_content_container_score`.  `contentFeatureScore` stands for the
external regular-expression engine evaluating the fixed `content_indicators`
table (signal 6) on the raw text: it returns the sum of the weights of the
matched patterns, which the scorer caps at 120.  All claims proved below hold
for every such table evaluation. -/
def calculate_content_container_score (contentFeatureScore : String → Nat)
    (c : Node) : Int :=
  let classes := lowerStr (attrD c "class")
  let eid := lowerStr (attrD c "id")
  let t := textContent c
  let tl := strLen (trimStr t)
  if lowerStr (tagOf c) == "header" || lowerStr (tagOf c) == "footer"
      || lowerStr (tagOf c) == "nav" || lowerStr (tagOf c) == "aside" then
    -500
  else
    let combined := lowerStr (trimStr (classes ++ " " ++ eid))
    let icount :=
      (strong_interference_keywords.filter
        (fun kw => wordBoundaryContains combined kw)).length
    let s1 : Int := -(200 * (icount : Int))
    if icount ≥ 2 then s1
    else
      let s2 := s1 - headerPenalty t - footerPenalty t
      if s2 < -200 then s2
      else
        let s3 := s2 + lengthBonus tl
        let s4 := s3 + roleBonus (lowerStr (attrD c "role"))
        let tcs := contentFeatureScore t
        let s5 := s4 + (if tcs > 0 then (min tcs 120 : Nat) else 0)
        let pm :=
          (positive_keywords.filter
            (fun kw => strContains classes kw || strContains eid kw)).length
        let s6 := s5 + (if pm > 0 then (min (pm * 20) 60 : Nat) else 0)
        let se := structuredCount c
        let s7 := s6 + (if se > 5 then (min (2 * se) 40 : Nat) else 0)
        let im := imageCount c
        s7 + (if im > 0 then (min (im * 3) 150 : Nat) else 0)

/-! The Candidate Selector. -/

/-- `is_child_of(child, parent)`: the Python code climbs from `child` through
its parents looking for `parent`; structurally this holds exactly when
`child` is a proper element descendant of `parent`. -/
def is_child_of (child parent : Node) : Bool := (descendants parent).contains child

mutual

/-- Number of tree levels between `root` and `target` (`none` when `target`
does not occur below `root`). -/
def pathDepth (root target : Node) : Option Nat :=
  if beqNode root target then some 0
  else
    match root with
    | .text _ => none
    | .elem _ _ cs => (pathDepthL cs target).map (· + 1)

def pathDepthL (l : List Node) (target : Node) : Option Nat :=
  match l with
  | [] => none
  | c :: cs =>
    match pathDepth c target with
    | some d => some d
    | none => pathDepthL cs target

end

/-- `calculate_container_depth`: levels from the container up to the body the
candidates were collected from. -/
def calculate_container_depth (root container : Node) : Nat :=
  (pathDepth root container).getD 0

/-- One step of a stable insertion sort, descending on `f`: the new element
passes only elements with strictly greater key, so ties keep their original
order, exactly like Python's stable `list.sort(..., reverse=True)`. -/
def insertDescBy (f : α → Int) (x : α) : List α → List α
  | [] => [x]
  | y :: ys => if f y > f x then y :: insertDescBy f x ys else x :: y :: ys

/-- Stable descending sort by `f` (models Python stable sort with
`reverse=True` / a negated sort key). -/
def sortDescBy (f : α → Int) : List α → List α
  | [] => []
  | x :: xs => insertDescBy f x (sortDescBy f xs)

/-- `select_deepest_container_from_similar`, with the body the depths are
measured against made explicit. -/
def select_deepest_container_from_similar (root : Node) (similar : List Node) :
    Option Node :=
  match similar with
  | [] => none
  | [c] => some c
  | _ =>
    (sortDescBy (fun c => (calculate_container_depth root c : Int)) similar).head?

/-- Score lookup `next(score for c, score in all_scored if c == container)`;
`none` models the `StopIteration` fault of an absent container (which the
outer extraction boundary would convert to a failed result). -/
def scoreOf (allScored : List (Node × Int)) (c : Node) : Option Int :=
  (allScored.find? (fun p => p.1 == c)).map (·.2)

/-- The `parent_child_pairs` list of `select_best_container_prefer_child`:
every ordered pair of similar containers where the second is a descendant of
the first, together with both scores. -/
def parentChildPairs (similar : List Node) (allScored : List (Node × Int)) :
    List (Node × Node × Int × Int) :=
  similar.flatMap (fun c1 =>
    similar.filterMap (fun c2 =>
      if is_child_of c2 c1 then
        match scoreOf allScored c1, scoreOf allScored c2 with
        | some s1, some s2 => some (c1, c2, s1, s2)
        | _, _ => none
      else none))

/-- Strict before-relation of the Python sort key `(-child_score, score_diff)`
on `valid_children` entries `(child, child_score, score_diff)`. -/
def validBefore (a b : Node × Int × Int) : Bool :=
  a.2.1 > b.2.1 || (a.2.1 == b.2.1 && a.2.2 < b.2.2)

def insertValid (x : Node × Int × Int) : List (Node × Int × Int) → List (Node × Int × Int)
  | [] => [x]
  | y :: ys => if validBefore y x then y :: insertValid x ys else x :: y :: ys

/-- Stable sort of `valid_children` by `(-child_score, score_diff)`. -/
def sortValid : List (Node × Int × Int) → List (Node × Int × Int)
  | [] => []
  | x :: xs => insertValid x (sortValid xs)

/-- `select_best_container_prefer_child`.  The Python comparison
`child_text_length < parent_text_length * 0.6` is modelled exactly over the
rationals as `10 * child_text_length < 6 * parent_text_length`. -/
def select_best_container_prefer_child (root : Node) (similar : List Node)
    (allScored : List (Node × Int)) : Option Node :=
  let pairs := parentChildPairs similar allScored
  if pairs.isEmpty then select_deepest_container_from_similar root similar
  else
    let valid := pairs.filterMap (fun q =>
      if q.2.2.1 - q.2.2.2 ≤ 20 ∧ q.2.2.2 ≥ 150 then
        some (q.2.1, q.2.2.2, q.2.2.1 - q.2.2.2)
      else none)
    if valid.isEmpty then select_deepest_container_from_similar root similar
    else
      match sortValid valid with
      | [] => none
      | (bc, _, _) :: _ =>
        let parentsOfBest := pairs.filterMap (fun q =>
          if q.2.1 == bc then some q.1 else none)
        match parentsOfBest with
        | [] => some bc
        | par :: _ =>
          if 10 * strLen (trimStr (textContent bc)) <
              6 * strLen (trimStr (textContent par)) then some par
          else some bc

/-- The absolute-protection test of `find_main_content_in_cleaned_html`. -/
def is_protected_container (c : Node) : Bool :=
  let classes := lowerStr (attrD c "class")
  let eid := lowerStr (attrD c "id")
  strContains eid "printcontent"
    || (descendants c).any (fun d =>
        attrD d "id" == "printContent" || attrD d "id" == "printcontent")
    || strContains classes "bg-fff"
    || (strContains classes "container" && decide ((descendants c).length > 20))

/-- `find_main_content_in_cleaned_html`: scores every
`div`/`section`/`article`/`main` descendant of the cleaned body, keeps the
protected (floored at 50) and not-too-negative candidates, sorts stably by
descending score, forms the 20-point similar-score band and delegates to the
child-preferring selector when the band has several members. -/
def find_main_content_in_cleaned_html (contentFeatureScore : String → Nat)
    (body : Node) : Option Node :=
  let containers := (descendants body).filter (fun d =>
    tagOf d == "div" || tagOf d == "section" || tagOf d == "article"
      || tagOf d == "main")
  if containers.isEmpty then some body
  else
    let scored := containers.filterMap (fun c =>
      let s := calculate_content_container_score contentFeatureScore c
      if is_protected_container c then some (c, max s 50)
      else if s < -100 then none
      else if s > -50 then some (c, s)
      else none)
    if scored.isEmpty then containers.head?
    else
      let sortedScored := sortDescBy (fun p => p.2) scored
      match sortedScored with
      | [] => none
      | (b0, bs) :: _ =>
        let similar := sortedScored.filter (fun p => (p.2 - bs).natAbs ≤ 20)
        let bestC :=
          if similar.length > 1 then
            select_best_container_prefer_child body (similar.map (·.1)) sortedScored
          else some b0
        match bestC with
        | none => none
        | some bc => if (scoreOf sortedScored bc).isSome then some bc else none

/-- `find_article_container`. -/
def find_article_container (contentFeatureScore : String → Nat) (tree : Node) :
    Option Node :=
  find_main_content_in_cleaned_html contentFeatureScore
    (preprocess_html_remove_interference tree)

/-! The Locator Generator (`generate_xpath`). -/

/-- `is_interference_identifier`. -/
def is_interference_identifier (identifier : String) : Bool :=
  if identifier == "" then false
  else interference_keywords.any (fun kw => strContains (lowerStr identifier) kw)

/-- Whitespace tokenisation of a `class` attribute, modelling Python
`classes.split()` (runs of whitespace separate tokens, no empty tokens). -/
def splitWsAux : List Char → List Char → List String
  | acc, [] => if acc.isEmpty then [] else [⟨acc.reverse⟩]
  | acc, c :: cs =>
    if c.isWhitespace then
      (if acc.isEmpty then [] else [⟨acc.reverse⟩]) ++ splitWsAux [] cs
    else splitWsAux (c :: acc) cs

def splitWs (s : String) : List String := splitWsAux [] s.data

/-- 1-based index of `target` among the same-tag element children of
`parent`, modelling the `getprevious()` sibling-counting loops of
`generate_xpath`. -/
def sameTagIndexAux (tg : String) (target : Node) : List Node → Nat → Nat
  | [], acc => acc
  | c :: cs, acc =>
    if beqNode c target then acc
    else if tagOf c == tg then sameTagIndexAux tg target cs (acc + 1)
    else sameTagIndexAux tg target cs acc

def sameTagIndex (parent target : Node) : Nat :=
  sameTagIndexAux (tagOf target) target (childElems parent) 1

/-- `find_closest_clean_identifier`: walk the ancestor chain (nearest first,
stopping at `html`) for the first ancestor with a clean `id` or at least one
clean class token, returning it with the rest of its own ancestor chain. -/
def find_closest_clean_identifier : List Node → Option (Node × List Node)
  | [] => none
  | p :: rest =>
    if tagOf p == "html" then none
    else
      let idOk :=
        match getAttr p "id" with
        | some v => !(v == "") && !is_interference_identifier v
        | none => false
      if idOk then some (p, rest)
      else
        let clsOk :=
          match getAttr p "class" with
          | some cls =>
            !(cls == "") &&
              ((splitWs cls).filter (fun c => !(trimStr c == ""))).any
                (fun c => !is_interference_identifier c)
          | none => false
        if clsOk then some (p, rest)
        else find_closest_clean_identifier rest

/-- Segments of `generate_relative_path`: walk from `current` up through its
ancestor chain until `anc`, producing `tag[index]` steps top-down. -/
def relSegs (anc : Node) : Node → List Node → List String
  | current, chain =>
    if beqNode current anc then []
    else
      match chain with
      | [] => [tagOf current ++ "[1]"]
      | p :: rest =>
        relSegs anc p rest ++
          [tagOf current ++ "[" ++ toString (sameTagIndex p current) ++ "]"]

/-- Segments of the absolute positional path (step 5 of `generate_xpath`):
walk up until the `html` element or the top of the chain. -/
def absSegs : Node → List Node → List String
  | current, chain =>
    if tagOf current == "html" then []
    else
      match chain with
      | [] => [tagOf current ++ "[1]"]
      | p :: rest =>
        absSegs p rest ++
          [tagOf current ++ "[" ++ toString (sameTagIndex p current) ++ "]"]

/-- Step 3 of `generate_xpath`: the first of `aria-label`, `role`,
`data-testid`, `data-role` that is present, non-empty and clean. -/
def firstAttrXpath (tg : String) (element : Node) : List String → Option String
  | [] => none
  | a :: rest =>
    match getAttr element a with
    | some v =>
      if !(v == "") && !is_interference_identifier v then
        some ("//" ++ tg ++ "[@" ++ a ++ "=\x27" ++ v ++ "\x27]")
      else firstAttrXpath tg element rest
    | none => firstAttrXpath tg element rest

/-- `generate_xpath`, fuelled.  The only recursive call (step 4, the locator
of a clean ancestor) descends to a strict suffix of the ancestor chain, so an
initial fuel of `ancestors.length + 1` can never run out; the fuel only makes
the recursion structural. -/
def generate_xpath_fuel : Nat → Node → List Node → Option String
  | 0, _, _ => none
  | Nat.succ fuel, element, ancestors =>
    if (childElems element).isEmpty then none
    else
      let tg := tagOf element
      let idPart : Option String :=
        match getAttr element "id" with
        | some v =>
          if !(v == "") && !is_interference_identifier v then
            some ("//" ++ tg ++ "[@id=\x27" ++ v ++ "\x27]")
          else none
        | none => none
      match idPart with
      | some s => some s
      | none =>
        let clsPart : Option String :=
          match getAttr element "class" with
          | some cls =>
            if !(cls == "") then
              some ("//" ++ tg ++ "[@class=\x27" ++ cls ++ "\x27]")
            else none
          | none => none
        match clsPart with
        | some s => some s
        | none =>
          match firstAttrXpath tg element ["aria-label", "role", "data-testid", "data-role"] with
          | some s => some s
          | none =>
            let ancPart : Option String :=
              match find_closest_clean_identifier ancestors with
              | some (anc, rest) =>
                match generate_xpath_fuel fuel anc rest with
                | some ax =>
                  some (ax ++ "/" ++
                    String.intercalate "/" (relSegs anc element ancestors))
                | none => none
              | none => none
            match ancPart with
            | some s => some s
            | none => some ("/" ++ String.intercalate "/" (absSegs element ancestors))

/-- `generate_xpath` of an element given its ancestor chain (immediate parent
first, document root last). -/
def generate_xpath (element : Node) (ancestors : List Node) : Option String :=
  generate_xpath_fuel (ancestors.length + 1) element ancestors

/-! The extraction entry point. -/

mutual

/-- Ancestor chain (immediate parent first) of the first occurrence of
`target` under `root`. -/
def ancChain (root target : Node) : Option (List Node) :=
  if beqNode root target then some []
  else
    match root with
    | .text _ => none
    | .elem t a cs => (ancChainL cs target).map (fun l => l ++ [Node.elem t a cs])

def ancChainL (l : List Node) (target : Node) : Option (List Node) :=
  match l with
  | [] => none
  | c :: cs =>
    match ancChain c target with
    | some r => some r
    | none => ancChainL cs target

end

/-- The three-field result record of `extract_content_to_markdown`. -/
structure ExtractResult where
  markdown_content : String
  xpath : String
  status : String
deriving DecidableEq

/-- `extract_content_to_markdown`.  The input is the outcome of the external
HTML parser (`none` models a parse exception, e.g. on the empty string, which
the function's outermost `try`/`except` converts to a failed result).
`render` stands for the external Markdown renderer
(`markdownify` + `clean_container_html` + `clean_markdown_content`).  The
`childElems … isEmpty` test is lxml element truthiness: `if not
main_container:` is taken exactly when the chosen element has no child
elements.  An internal fault (modelled by `find_article_container = none`) is
likewise caught and converted to the failed result. -/
def extract_content_to_markdown (contentFeatureScore : String → Nat)
    (render : Node → String) (parsed : Option Node) : ExtractResult :=
  match parsed with
  | none => ⟨"", "", "failed"⟩
  | some tree =>
    match find_article_container contentFeatureScore tree with
    | none => ⟨"", "", "failed"⟩
    | some mainContainer =>
      if (childElems mainContainer).isEmpty then ⟨"", "", "failed"⟩
      else
        ⟨render mainContainer,
          (generate_xpath mainContainer ((ancChain tree mainContainer).getD [])).getD "",
          "success"⟩

/-! The List-Container Variant: the final sanity pass of
`find_list_container`. -/

/-- `count_list_items`: descendants matched by
`.//li | .//tr | .//article | .//div[contains(@class, 'item')]`. -/
def count_list_items (n : Node) : Nat :=
  ((descendants n).filter (fun d =>
    tagOf d == "li" || tagOf d == "tr" || tagOf d == "article"
      || (tagOf d == "div" && strContains (attrD d "class") "item"))).length

/-- The final sanity pass at the end of `find_list_container` (the code after
the upward-promotion walk).  `score` stands for the enclosed
`calculate_container_score` closure (whose regular-expression signals are
external); the pass itself only compares its integer results.  `parent` is
`current_container.getparent()`. -/
def final_sanity_pass (score : Node → Int) (current : Node) :
    Option Node → Node
  | none => current
  | some p =>
    if count_list_items current < 4 ∨ score current < -10 then
      if tagOf p ≠ "html" ∧ count_list_items p > count_list_items current
          ∧ score p > 0 ∧ count_list_items p ≤ 30 then p
      else current
    else current

/-! Soundness of recursive subtree removal. -/

mutual

/-- After `removeNodes p`, no surviving descendant satisfies `p` (for
predicates that do not inspect children, as all removal predicates of the
cleaner do). -/
theorem removeNodes_sound (p : Node → Bool)
    (hp : ∀ t a cs cs', p (.elem t a cs) = p (.elem t a cs')) :
    ∀ (t : Node) n, n ∈ descendants (removeNodes p t) → p n = false
  | .text _, n, h => by simp [removeNodes, descendants] at h
  | .elem _ _ cs, n, h => by
    simp only [removeNodes, descendants] at h
    exact removeNodesL_sound p hp cs n h

theorem removeNodesL_sound (p : Node → Bool)
    (hp : ∀ t a cs cs', p (.elem t a cs) = p (.elem t a cs')) :
    ∀ (l : List Node) n, n ∈ descendantsL (removeNodesL p l) → p n = false
  | [], n, h => by simp [removeNodesL, descendantsL] at h
  | c :: cs, n, h => by
    simp only [removeNodesL] at h
    by_cases hc : p c
    · rw [if_pos hc] at h
      exact removeNodesL_sound p hp cs n h
    · rw [if_neg hc] at h
      cases c with
      | text s =>
        simp only [removeNodes, descendantsL, List.nil_append] at h
        exact removeNodesL_sound p hp cs n h
      | elem t2 a2 k =>
        simp only [removeNodes, descendantsL] at h
        rcases List.mem_append.mp h with h | h
        · rcases List.mem_cons.mp h with h | h
          · subst h
            rw [hp t2 a2 (removeNodesL p k) k]
            simpa using hc
          · exact removeNodesL_sound p hp k n (by simpa [descendants] using h)
        · exact removeNodesL_sound p hp cs n h

end

/-- Removing some children only shrinks the descendant set. -/
theorem descendantsL_filter_subset (q : Node → Bool) :
    ∀ (l : List Node) n, n ∈ descendantsL (l.filter q) → n ∈ descendantsL l
  | [], n, h => by simp [descendantsL] at h
  | c :: cs, n, h => by
    by_cases hc : q c
    · rw [List.filter_cons_of_pos hc] at h
      cases c with
      | text s =>
        simp only [descendantsL, List.nil_append] at h ⊢
        exact descendantsL_filter_subset q cs n h
      | elem t a k =>
        simp only [descendantsL] at h ⊢
        rcases List.mem_append.mp h with h | h
        · exact List.mem_append.mpr (Or.inl h)
        · exact List.mem_append.mpr (Or.inr (descendantsL_filter_subset q cs n h))
    · rw [List.filter_cons_of_neg hc] at h
      have hm := descendantsL_filter_subset q cs n h
      cases c with
      | text s => simpa [descendantsL] using hm
      | elem t a k =>
        simp only [descendantsL]
        exact List.mem_append.mpr (Or.inr hm)

/-! Claim C2. -/

/-- C2 counterexample: a `span` with `role="banner"` survives the stricter
semantic cleaning pass untouched — the role-based removal only targets `div`
(all three roles) and `section` (role `navigation`), not every node carrying
such a role. -/
theorem C2_role_removal_counterexample :
    (Node.elem "span" [("role", "banner")] [.text "site banner"]) ∈
        descendants (remove_semantic_interference_tags
          (.elem "body" [] [.elem "span" [("role", "banner")] [.text "site banner"]]))
    ∧ attrD (.elem "span" [("role", "banner")] [.text "site banner"]) "role" = "banner" := by
  decide

/-- C2 amended: the pre-scoring cleaning of `remove_page_level_header_footer`
deletes every `header`, `footer` and `nav` node, and the stricter
`remove_semantic_interference_tags` variant additionally deletes every
`aside` node, every `div` whose role is `navigation`, `banner` or
`contentinfo`, and every `section` whose role is `navigation` (but not other
nodes carrying those roles). -/
theorem C2_semantic_cleaning_amended (b n : Node) :
    (n ∈ descendants (remove_page_level_header_footer b) →
        tagOf n ≠ "header" ∧ tagOf n ≠ "footer" ∧ tagOf n ≠ "nav")
    ∧ (n ∈ descendants (remove_semantic_interference_tags b) →
        (tagOf n ≠ "header" ∧ tagOf n ≠ "footer" ∧ tagOf n ≠ "nav" ∧ tagOf n ≠ "aside")
        ∧ ¬(tagOf n = "div" ∧ (attrD n "role" = "navigation" ∨ attrD n "role" = "banner"
              ∨ attrD n "role" = "contentinfo"))
        ∧ ¬(tagOf n = "section" ∧ attrD n "role" = "navigation")) := by
  constructor
  · intro h
    have h1 : n ∈ descendants (removeSemanticRound1 b) := by
      unfold remove_page_level_header_footer at h
      cases hr : removeSemanticRound1 b with
      | text s =>
        rw [hr] at h
        simp [removeTopHeaderFooterDivs, descendants] at h
      | elem t a cs =>
        rw [hr] at h
        simp only [removeTopHeaderFooterDivs, descendants] at h ⊢
        exact descendantsL_filter_subset _ cs n h
    have hs := removeNodes_sound semanticTagPred (fun _ _ _ _ => rfl) b n h1
    refine ⟨?_, ?_, ?_⟩ <;> intro he <;> simp [semanticTagPred, he] at hs
  · intro h
    have hs := removeNodes_sound strictSemanticPred (fun _ _ _ _ => rfl) b n h
    refine ⟨⟨?_, ?_, ?_, ?_⟩, ?_, ?_⟩
    · intro he; simp [strictSemanticPred, he] at hs
    · intro he; simp [strictSemanticPred, he] at hs
    · intro he; simp [strictSemanticPred, he] at hs
    · intro he; simp [strictSemanticPred, he] at hs
    · rintro ⟨hd, hr⟩
      rcases hr with hr | hr | hr <;> simp [strictSemanticPred, hd, hr] at hs
    · rintro ⟨hd, hr⟩
      simp [strictSemanticPred, hd, hr] at hs

/-- Witness for C2 (amended): in a body holding a `header` and a role-`main`
`div`, the `div` survives the strict cleaning and the theorem certifies it
carries none of the removed shapes. -/
theorem C2_semantic_cleaning_amended_witness :
    (Node.elem "div" [("role", "main")] [.text "x"]) ∈
        descendants (remove_semantic_interference_tags
          (.elem "body" [] [.elem "header" [] [], .elem "div" [("role", "main")] [.text "x"]]))
    ∧ tagOf (Node.elem "div" [("role", "main")] [.text "x"]) ≠ "header" := by
  refine ⟨by decide, ?_⟩
  exact ((C2_semantic_cleaning_amended
    (.elem "body" [] [.elem "header" [] [], .elem "div" [("role", "main")] [.text "x"]])
    (.elem "div" [("role", "main")] [.text "x"])).2 (by decide)).1.1

/-! Claim C6. -/

/-- C6 counterexample: the top-level strong-signal removal deletes a direct
`div` child of the body whose class is `stopwatch`, although no strong
header/footer keyword matches it at a word boundary (`top` occurs only inside
the larger word) — the matching is naive substring containment, not
word-boundary matching. -/
theorem C6_word_boundary_counterexample :
    ((strong_header_indicators ++ strong_footer_indicators).all (fun kw =>
        !wordBoundaryContains (lowerStr (attrD (.elem "div" [("class", "stopwatch")] [.text "hello"]) "class")) kw
          && !wordBoundaryContains (lowerStr (attrD (.elem "div" [("class", "stopwatch")] [.text "hello"]) "id")) kw)) = true
    ∧ childrenOf (remove_page_level_header_footer
        (.elem "body" [] [.elem "div" [("class", "stopwatch")] [.text "hello"]])) = [] := by
  decide

/-- C6 amended: a direct child of the body survives the top-level
strong-signal removal exactly when it is not a `div` matching
`isHeaderFooterTopDiv`, whose keyword test is naive substring containment of
the strong header/footer indicators in the lowered `class`/`id` (plus the
keyword-count/size content conditions). -/
theorem C6_substring_removal_amended (b c : Node) :
    c ∈ childrenOf (remove_page_level_header_footer b) ↔
      c ∈ childrenOf (removeSemanticRound1 b)
        ∧ ¬(tagOf c = "div" ∧ isHeaderFooterTopDiv c = true) := by
  unfold remove_page_level_header_footer
  cases hr : removeSemanticRound1 b with
  | text s => simp [removeTopHeaderFooterDivs, childrenOf]
  | elem t a cs =>
    simp only [removeTopHeaderFooterDivs, childrenOf, List.mem_filter]
    constructor
    · rintro ⟨hm, hb⟩
      refine ⟨hm, ?_⟩
      rintro ⟨hd, hf⟩
      rw [Bool.not_eq_true', Bool.and_eq_false_iff] at hb
      rcases hb with hb | hb
      · rw [beq_eq_false_iff_ne] at hb; exact hb hd
      · rw [hf] at hb; exact absurd hb (by decide)
    · rintro ⟨hm, hb⟩
      refine ⟨hm, ?_⟩
      rw [Bool.not_eq_true', Bool.and_eq_false_iff]
      by_cases hd : tagOf c = "div"
      · right
        cases hf : isHeaderFooterTopDiv c with
        | false => rfl
        | true => exact absurd ⟨hd, hf⟩ hb
      · left
        rw [beq_eq_false_iff_ne]
        exact hd

/-! Claim C5. -/

/-- C5: for every node whose tag is `header`, `footer`, `nav`, or `aside`, the
Candidate Scorer returns exactly -500, independently of every other signal
(in particular of the whole content-pattern table), evaluating nothing
further. -/
theorem C5_chrome_tag_score (contentFeatureScore : String → Nat) (c : Node)
    (h : tagOf c = "header" ∨ tagOf c = "footer" ∨ tagOf c = "nav" ∨ tagOf c = "aside") :
    calculate_content_container_score contentFeatureScore c = -500 := by
  have hcond : (lowerStr (tagOf c) == "header" || lowerStr (tagOf c) == "footer"
      || lowerStr (tagOf c) == "nav" || lowerStr (tagOf c) == "aside") = true := by
    rcases h with h | h | h | h <;> rw [h] <;> decide
  simp [calculate_content_container_score, hcond]

/-- Witness for C5 at a concrete `header` element. -/
theorem C5_chrome_tag_score_witness :
    calculate_content_container_score (fun _ => 0)
      (.elem "header" [("class", "site")] [.text "welcome"]) = -500 :=
  C5_chrome_tag_score (fun _ => 0) _ (Or.inl rfl)

/-! Claim C10. -/

/-- C10: when a node's text contains the breadcrumb phrase 当前位置 (or
当前的位置), the scorer's header-content keyword count is forced to zero, so
neither the -300 nor the -150 header-content penalty can apply, while the
footer penalty keeps its usual form in terms of the footer keyword count
alone. -/
theorem C10_breadcrumb_header_suppression (c : Node)
    (h : hasBreadcrumb (textContent c) = true) :
    headerContentCount (textContent c) = 0 ∧
    headerPenalty (textContent c) = 0 ∧
    footerPenalty (textContent c) =
      (if footerContentCount (textContent c) ≥ 3 then 300
       else if footerContentCount (textContent c) ≥ 2 then 150 else 0) := by
  have h0 : headerContentCount (textContent c) = 0 := by
    simp [headerContentCount, h]
  refine ⟨h0, ?_, rfl⟩
  simp [headerPenalty, h0]

/-- Witness for C10: a node whose text holds three header keywords next to the
breadcrumb phrase still gets header count 0 (without the suppression the same
text matches three header keywords). -/
theorem C10_breadcrumb_header_suppression_witness :
    hasBreadcrumb (textContent (.elem "div" [] [.text "当前位置 首页 导航 菜单"])) = true ∧
    headerContentCount (textContent (.elem "div" [] [.text "当前位置 首页 导航 菜单"])) = 0 ∧
    (header_content_keywords.filter
      (fun kw => strContains (lowerStr "当前位置 首页 导航 菜单") kw)).length = 3 := by
  refine ⟨by decide, ?_, by decide⟩
  exact (C10_breadcrumb_header_suppression _ (by decide)).1

/-! Claim C7. -/

/-- C7: the extraction pipeline is a deterministic function of its input: two
runs on the same parsed document with the same external collaborators agree
on all three result fields.  In this embedding the whole pipeline is a pure
function — the translation of the source introduced no state because the
Python extraction path reads and writes no cross-request state (its only
side effect is logging). -/
theorem C7_extraction_deterministic (contentFeatureScore : String → Nat)
    (render : Node → String) (parsed : Option Node) :
    (extract_content_to_markdown contentFeatureScore render parsed).markdown_content
        = (extract_content_to_markdown contentFeatureScore render parsed).markdown_content
    ∧ (extract_content_to_markdown contentFeatureScore render parsed).xpath
        = (extract_content_to_markdown contentFeatureScore render parsed).xpath
    ∧ (extract_content_to_markdown contentFeatureScore render parsed).status
        = (extract_content_to_markdown contentFeatureScore render parsed).status :=
  ⟨rfl, rfl, rfl⟩

/-! Claim C1. -/

/-- C1: whenever no suitable content subtree is located — the parser raised
(e.g. on the empty string or malformed input, `parsed = none`), the pipeline
faulted internally, or the located container is empty-falsy — the extraction
returns status `failed` with empty content and empty locator; being a total
function it raises nothing to its caller. -/
theorem C1_no_content_failed (contentFeatureScore : String → Nat)
    (render : Node → String) (parsed : Option Node)
    (h : parsed = none ∨ ∃ t, parsed = some t ∧
          (find_article_container contentFeatureScore t = none ∨
            ∃ m, find_article_container contentFeatureScore t = some m ∧
              childElems m = [])) :
    extract_content_to_markdown contentFeatureScore render parsed = ⟨"", "", "failed"⟩ := by
  rcases h with h | ⟨t, ht, h⟩
  · rw [h]; rfl
  · subst ht
    rcases h with h | ⟨m, hm, hme⟩
    · simp [extract_content_to_markdown, h]
    · simp [extract_content_to_markdown, hm, hme]

/-- Witness for C1: empty-string input (the parser raises, so the parse
outcome is `none`) produces the failed record with empty content and empty
locator. -/
theorem C1_no_content_failed_witness :
    extract_content_to_markdown (fun _ => 0) (fun _ => "") none = ⟨"", "", "failed"⟩ :=
  C1_no_content_failed (fun _ => 0) (fun _ => "") none (Or.inl rfl)

/-! Claim C9. -/

/-- C9: when the pipeline's chosen main-content element has zero child
elements (e.g. a `div` holding only text), the element is falsy, so
extraction answers `failed` with empty content and locator even though a
content subtree was located; `generate_xpath` likewise returns `None` for
such an element, whatever its ancestor chain. -/
theorem C9_childless_container_failed (contentFeatureScore : String → Nat)
    (render : Node → String) (t m : Node)
    (hfind : find_article_container contentFeatureScore t = some m)
    (hempty : childElems m = []) :
    extract_content_to_markdown contentFeatureScore render (some t) = ⟨"", "", "failed"⟩
    ∧ ∀ anc : List Node, generate_xpath m anc = none := by
  constructor
  · simp [extract_content_to_markdown, hfind, hempty]
  · intro anc
    simp [generate_xpath, generate_xpath_fuel, hempty]

/-- Witness for C9: a body whose only candidate is a text-only `div`; the
pipeline locates that `div`, yet extraction fails with empty fields. -/
theorem C9_childless_container_failed_witness :
    find_article_container (fun _ => 0)
        (.elem "body" [] [.elem "div" [] [.text "hello world"]])
      = some (.elem "div" [] [.text "hello world"])
    ∧ extract_content_to_markdown (fun _ => 0) (fun _ => "")
        (some (.elem "body" [] [.elem "div" [] [.text "hello world"]]))
      = ⟨"", "", "failed"⟩ := by
  refine ⟨by decide, ?_⟩
  exact (C9_childless_container_failed (fun _ => 0) (fun _ => "")
    (.elem "body" [] [.elem "div" [] [.text "hello world"]])
    (.elem "div" [] [.text "hello world"]) (by decide) (by decide)).1

/-! Claim C4. -/

/-- C4 counterexample: a node with a clean, present `id` but zero child
elements is falsy, so `generate_xpath` returns `None` instead of the claimed
`//div[@id='content']` — the claim fails for childless nodes. -/
theorem C4_clean_id_counterexample :
    generate_xpath (.elem "div" [("id", "content")] []) [] = none
    ∧ getAttr (.elem "div" [("id", "content")] []) "id" = some "content"
    ∧ is_interference_identifier "content" = false := by
  decide

/-- C4 amended: for every node with at least one child element whose `id` is
present, non-empty and free of interference keywords, the Locator Generator
returns exactly `//tag[@id='value']`, and two runs on the same node yield
identical strings. -/
theorem C4_clean_id_xpath_amended (n : Node) (anc : List Node) (v : String)
    (h1 : childElems n ≠ []) (h2 : getAttr n "id" = some v) (h3 : v ≠ "")
    (h4 : is_interference_identifier v = false) :
    generate_xpath n anc = some ("//" ++ tagOf n ++ "[@id=\x27" ++ v ++ "\x27]")
    ∧ generate_xpath n anc = generate_xpath n anc := by
  refine ⟨?_, rfl⟩
  have he : (childElems n).isEmpty = false := by
    cases hc : childElems n with
    | nil => exact absurd hc h1
    | cons a l => rfl
  have hv : (v == "") = false := by
    cases hb : v == "" with
    | false => rfl
    | true => exact absurd (eq_of_beq hb) h3
  simp [generate_xpath, generate_xpath_fuel, he, h2, hv, h4]

/-- Witness for C4 (amended) at a concrete clean-id node with one child. -/
theorem C4_clean_id_xpath_amended_witness :
    generate_xpath (.elem "div" [("id", "printArea")] [.elem "p" [] [.text "body text"]]) []
      = some "//div[@id=\x27printArea\x27]" := by
  exact (C4_clean_id_xpath_amended
    (.elem "div" [("id", "printArea")] [.elem "p" [] [.text "body text"]]) []
    "printArea" (by decide) (by decide) (by decide) (by decide)).1

/-! Claim C8. -/

/-- C8 counterexample: a chosen container with five items and score -5 — a
non-positive score the claim says triggers re-expansion — is kept even though
a qualifying parent (positive score, more items, at most 30) exists: the code
re-expands only below score -10, not at every non-positive score. -/
theorem C8_sanity_pass_counterexample :
    final_sanity_pass (fun n => if tagOf n == "section" then (10 : Int) else -5)
        (.elem "div" [] [.elem "li" [] [], .elem "li" [] [], .elem "li" [] [],
          .elem "li" [] [], .elem "li" [] []])
        (some (.elem "section" [] [.elem "div" [] [.elem "li" [] [], .elem "li" [] [],
          .elem "li" [] [], .elem "li" [] [], .elem "li" [] []], .elem "li" [] []]))
      = .elem "div" [] [.elem "li" [] [], .elem "li" [] [], .elem "li" [] [],
          .elem "li" [] [], .elem "li" [] []]
    ∧ (fun n => if tagOf n == "section" then (10 : Int) else -5)
        (.elem "div" [] [.elem "li" [] [], .elem "li" [] [], .elem "li" [] [],
          .elem "li" [] [], .elem "li" [] []]) ≤ 0
    ∧ ¬(count_list_items (.elem "div" [] [.elem "li" [] [], .elem "li" [] [],
          .elem "li" [] [], .elem "li" [] [], .elem "li" [] []]) < 4)
    ∧ tagOf (Node.elem "section" [] [.elem "div" [] [.elem "li" [] [], .elem "li" [] [],
          .elem "li" [] [], .elem "li" [] [], .elem "li" [] []], .elem "li" [] []]) ≠ "html"
    ∧ count_list_items (Node.elem "section" [] [.elem "div" [] [.elem "li" [] [],
          .elem "li" [] [], .elem "li" [] [], .elem "li" [] [], .elem "li" [] []],
          .elem "li" [] []])
        > count_list_items (.elem "div" [] [.elem "li" [] [], .elem "li" [] [],
          .elem "li" [] [], .elem "li" [] [], .elem "li" [] []])
    ∧ (fun n => if tagOf n == "section" then (10 : Int) else -5)
        (Node.elem "section" [] [.elem "div" [] [.elem "li" [] [], .elem "li" [] [],
          .elem "li" [] [], .elem "li" [] [], .elem "li" [] []], .elem "li" [] []]) > 0
    ∧ count_list_items (Node.elem "section" [] [.elem "div" [] [.elem "li" [] [],
          .elem "li" [] [], .elem "li" [] [], .elem "li" [] [], .elem "li" [] []],
          .elem "li" [] []]) ≤ 30 := by
  decide

/-- C8 amended: the final sanity pass replaces the chosen container by its
parent exactly when the container has fewer than 4 items or a score below
-10 (not merely non-positive), and the parent is not `html` and has a
positive score, at most 30 items and more items than the container. -/
theorem C8_sanity_pass_amended (score : Node → Int) (current p : Node)
    (hne : p ≠ current) :
    final_sanity_pass score current (some p) = p ↔
      ((count_list_items current < 4 ∨ score current < -10) ∧
        tagOf p ≠ "html" ∧ count_list_items p > count_list_items current ∧
        score p > 0 ∧ count_list_items p ≤ 30) := by
  simp only [final_sanity_pass]
  split_ifs with h1 h2
  · exact ⟨fun _ => ⟨h1, h2⟩, fun _ => rfl⟩
  · constructor
    · intro hc; exact absurd hc.symm hne
    · intro hrhs; exact absurd hrhs.2 h2
  · constructor
    · intro hc; exact absurd hc.symm hne
    · intro hrhs; exact absurd hrhs.1 h1

/-- Witness for C8 (amended): a two-item, score -20 container is re-expanded
to its five-item, positive-score `section` parent. -/
theorem C8_sanity_pass_amended_witness :
    final_sanity_pass (fun n => if tagOf n == "section" then (20 : Int) else -20)
        (.elem "div" [] [.elem "li" [] [], .elem "li" [] []])
        (some (.elem "section" [] [.elem "div" [] [.elem "li" [] [], .elem "li" [] []],
          .elem "li" [] [], .elem "li" [] [], .elem "li" [] []]))
      = .elem "section" [] [.elem "div" [] [.elem "li" [] [], .elem "li" [] []],
          .elem "li" [] [], .elem "li" [] [], .elem "li" [] []] :=
  (C8_sanity_pass_amended (fun n => if tagOf n == "section" then (20 : Int) else -20)
      (.elem "div" [] [.elem "li" [] [], .elem "li" [] []])
      (.elem "section" [] [.elem "div" [] [.elem "li" [] [], .elem "li" [] []],
        .elem "li" [] [], .elem "li" [] [], .elem "li" [] []])
      (by decide)).mpr (by decide)

/-! Claim C3. -/

/-- C3: when the similar-score band contains exactly one (ancestor,
descendant) pair — the descendant within 20 points of the ancestor (both
directions hold inside the band) and scoring at least 150 — the selector
returns the descendant, unless the descendant's trimmed text length is under
60 percent of the ancestor's, in which case it returns the ancestor. -/
theorem C3_prefer_child_selection (root : Node) (similar : List Node)
    (allScored : List (Node × Int)) (p c : Node) (sp sc : Int)
    (hpairs : parentChildPairs similar allScored = [(p, c, sp, sc)])
    (hband1 : sp - sc ≤ 20) (_hband2 : sc - sp ≤ 20) (hsc : sc ≥ 150) :
    select_best_container_prefer_child root similar allScored =
      some (if 10 * strLen (trimStr (textContent c)) <
              6 * strLen (trimStr (textContent p)) then p else c) := by
  have hb : sp ≤ 20 + sc := by omega
  have hnlt : ¬sc < 150 := not_lt.mpr hsc
  simp [select_best_container_prefer_child, hpairs, hb, hsc, hnlt, sortValid, insertValid,
    apply_ite]
  split
  · next hlt => exact fun hle => absurd hlt (not_lt.mpr hle)
  · next hnl => exact fun hlt => absurd hlt hnl

/-- Witness for C3: two nested `div`s scoring 160 and 155; the inner one keeps
10 of the outer 12 characters, so the inner (child) node is selected. -/
theorem C3_prefer_child_selection_witness :
    select_best_container_prefer_child
        (.elem "div" [("id", "outer")] [.elem "div" [("id", "inner")] [.text "1234567890"], .text "xy"])
        [.elem "div" [("id", "outer")] [.elem "div" [("id", "inner")] [.text "1234567890"], .text "xy"],
         .elem "div" [("id", "inner")] [.text "1234567890"]]
        [(.elem "div" [("id", "outer")] [.elem "div" [("id", "inner")] [.text "1234567890"], .text "xy"], 160),
         (.elem "div" [("id", "inner")] [.text "1234567890"], 155)]
      = some (.elem "div" [("id", "inner")] [.text "1234567890"]) := by
  have h := C3_prefer_child_selection
    (.elem "div" [("id", "outer")] [.elem "div" [("id", "inner")] [.text "1234567890"], .text "xy"])
    [.elem "div" [("id", "outer")] [.elem "div" [("id", "inner")] [.text "1234567890"], .text "xy"],
     .elem "div" [("id", "inner")] [.text "1234567890"]]
    [(.elem "div" [("id", "outer")] [.elem "div" [("id", "inner")] [.text "1234567890"], .text "xy"], 160),
     (.elem "div" [("id", "inner")] [.text "1234567890"], 155)]
    (.elem "div" [("id", "outer")] [.elem "div" [("id", "inner")] [.text "1234567890"], .text "xy"])
    (.elem "div" [("id", "inner")] [.text "1234567890"])
    160 155 (by decide) (by decide) (by decide) (by decide)
  rw [if_neg (by decide)] at h
  exact h

end XpathGet
